import Mathlib

/-!
Shallow embedding of `scripts/memcheck_xml2junit_converter.py`, a batch
transcoder from Valgrind Memcheck XML reports to JUnit XML.

Modelling conventions:
* An XML element found by `Element.find` is `Option Elem`; `Elem.text` is
  `Option String` (ElementTree gives `None` for an element with no text).
* Python exceptions that the script does not catch are modelled by
  `Except PyError`; `AttributeError` arises from dereferencing `None`
  (e.g. `kind.text` when `find` returned `None`, or `None.replace`),
  `TypeError` from concatenating `None` to a `str`, and `NameError` from
  reading a variable that was never assigned.
* The sequence of `out.write(...)` calls for one input file is modelled as
  the `List String` of written chunks; the file's final content is the
  concatenation of the chunks.
* A parsed report is modelled by the list of its `error` nodes in document
  order (the result of `doc.findall('.//error')`), since the script reads
  nothing else from the tree.
-/

/-- An XML element as seen through ElementTree: only its text matters here.
`text = none` models an element with no text content. -/
structure Elem where
  text : Option String
deriving DecidableEq, Repr

/-- One `frame` child of an error's `stack` node; each field is the result
of `frame.find(...)` for the corresponding tag. -/
structure Frame where
  ip : Option Elem
  fn : Option Elem
  file : Option Elem
  line : Option Elem
deriving DecidableEq, Repr

/-- One `error` node of the report. `kind`, `what`, `xwhatText` are the
results of `error.find('kind')`, `error.find('what')`,
`error.find('xwhat/text')`; `stack` is `none` when `error.find('stack')`
returns `None`, otherwise the list returned by `stack.findall('frame')`. -/
structure ErrorNode where
  kind : Option Elem
  what : Option Elem
  xwhatText : Option Elem
  stack : Option (List Frame)
deriving DecidableEq, Repr

/-- Uncaught Python exceptions of the script. -/
inductive PyError where
  | attributeError
  | typeError
  | nameError
deriving DecidableEq, Repr

/-- `x.text` followed by use in string concatenation: `AttributeError` when
the element is absent (`None.text`), `TypeError` when the text is `None`
(concatenating `None` to a `str`). -/
def getText : Option Elem → Except PyError String
  | none => Except.error PyError.attributeError
  | some e =>
    match e.text with
    | none => Except.error PyError.typeError
    | some t => Except.ok t

/-- Lines 89-91: `what = error.find('what'); if what == None: what =
error.find('xwhat/text')`. -/
def findWhat (e : ErrorNode) : Option Elem :=
  match e.what with
  | some w => some w
  | none => e.xwhatText

/-- Lines 96-100: the frame-scanning loop. The state is the pair of the
variables `fi`, `li`; `none` means they are unbound (never assigned in this
run). Each iteration assigns both from the current frame and breaks when
both are non-`None`; an empty frame list leaves the state untouched. -/
def scanFrames : List Frame → Option (Option Elem × Option Elem) →
    Option (Option Elem × Option Elem)
  | [], st => st
  | f :: rest, _ =>
    if f.file.isSome && f.line.isSome then some (f.file, f.line)
    else scanFrames rest (some (f.file, f.line))

/-- Fuel-driven substring replacement on character lists, scanning left to
right and never rescanning the replacement text — the semantics of Python's
`str.replace` for a nonempty pattern `p0 :: ps`. The fuel is at least the
list length at every call, so it never runs out. -/
def replaceListAux (p0 : Char) (ps rep : List Char) : Nat → List Char → List Char
  | 0, l => l
  | _ + 1, [] => []
  | fuel + 1, c :: rest =>
    if c = p0 && ps.isPrefixOf rest then
      rep ++ replaceListAux p0 ps rep fuel (rest.drop ps.length)
    else
      c :: replaceListAux p0 ps rep fuel rest

/-- Python `s.replace(pat, rep)`. Faithful for nonempty patterns; the
script only ever uses the one-character patterns `"&"`, `"<"`, `">"`. -/
def pyReplace (s pat rep : String) : String :=
  match pat.data with
  | [] => s
  | p0 :: ps => ⟨replaceListAux p0 ps rep.data s.data.length s.data⟩

/-- Lines 118-120: the three successive replacements applied to the
function-name body text, in source order (`&` first, then `<`, then `>`). -/
def escapeFn (s : String) : String :=
  pyReplace (pyReplace (pyReplace s "&" "&amp;") "<" "&lt;") ">" "&gt;"

/-- Lines 110-124, one iteration of the body loop: builds the body line for
one frame. `bodytext` is computed first (lines 114-120): a missing `fn`
yields the default `"unknown function name"`, an `fn` element with `None`
text faults at `None.replace` (`AttributeError`). Only then is `ip.text`
used, and `fi.text`/`li.text` only when both elements are present. -/
def frameLine (f : Frame) : Except PyError String := do
  let bt ←
    match f.fn with
    | none => Except.ok "unknown function name"
    | some el =>
      match el.text with
      | none => Except.error PyError.attributeError
      | some t => Except.ok t
  let bt := escapeFn bt
  let ipT ← getText f.ip
  if f.file.isSome && f.line.isSome then do
    let fiT ← getText f.file
    let liT ← getText f.line
    Except.ok ("  " ++ ipT ++ ": " ++ bt ++ " (" ++ fiT ++ ":" ++ liT ++ ")\n")
  else
    Except.ok ("  " ++ ipT ++ ": " ++ bt ++ "\n")

/-- Lines 109-124: the body loop over all frames. It reassigns `fi`, `li`
from every frame, so after a nonempty loop they hold the last frame's
`file`/`line`; an empty loop leaves them at the value passed in. Returns
the written lines and the final `(fi, li)`. -/
def bodyLoop : List Frame → (Option Elem × Option Elem) →
    Except PyError (List String × (Option Elem × Option Elem))
  | [], st => Except.ok ([], st)
  | f :: rest, _ => do
    let line ← frameLine f
    let (restLines, st') ← bodyLoop rest (f.file, f.line)
    Except.ok (line :: restLines, st')

/-- Lines 102-105: the test-case opening line. Concatenation evaluates
`kind.text` first, then (in the qualifying branch) `fi.text` and
`li.text`. -/
def nameLine (filename : String) (errorcount : Nat) (kind fi li : Option Elem) :
    Except PyError String :=
  if fi.isSome && li.isSome then do
    let k ← getText kind
    let f ← getText fi
    let l ← getText li
    Except.ok ("    <testcase classname=\"valgrind-memcheck\" name=\"" ++ filename
      ++ " " ++ toString errorcount ++ " (" ++ k ++ ", " ++ f ++ ":" ++ l ++ ")\">\n")
  else do
    let k ← getText kind
    Except.ok ("    <testcase classname=\"valgrind-memcheck\" name=\"" ++ filename
      ++ " " ++ toString errorcount ++ " (" ++ k ++ ")\">\n")

/-- Lines 88-126, one iteration of the error loop. `st` is the incoming
state of the variables `fi`, `li` (unbound on the very first record);
returns the chunks written for this record and the outgoing state. A
missing `stack` faults at `stack.findall` (`AttributeError`); unbound
`fi`/`li` at the post-scan test fault as `NameError`. -/
def processError (filename tt : String) (errorcount : Nat)
    (st : Option (Option Elem × Option Elem)) (e : ErrorNode) :
    Except PyError (List String × (Option Elem × Option Elem)) :=
  match e.stack with
  | none => Except.error PyError.attributeError
  | some frames =>
    match scanFrames frames st with
    | none => Except.error PyError.nameError
    | some (fi, li) => do
      let nl ← nameLine filename errorcount e.kind fi li
      let k ← getText e.kind
      let w ← getText (findWhat e)
      let (fls, st2) ← bodyLoop frames (fi, li)
      Except.ok (nl
        :: ("        <" ++ tt ++ " type=\"" ++ k ++ "\">\n")
        :: ("  " ++ w ++ "\n\n")
        :: (fls ++ ["        </" ++ tt ++ ">\n", "    </testcase>\n"]), st2)

/-- Lines 84-126: the loop over all error records. `errorcount` is 1-based;
the `fi`/`li` state threads from one record to the next without being
reset. Returns the concatenation of all chunks written inside the loop and
the outgoing `fi`/`li` state (unchanged on an empty record list). -/
def errorsLoop (filename tt : String) :
    Nat → Option (Option Elem × Option Elem) → List ErrorNode →
    Except PyError (List String × Option (Option Elem × Option Elem))
  | _, st, [] => Except.ok ([], st)
  | n, st, e :: rest => do
    let (chunks, st') ← processError filename tt n st e
    let (more, st'') ← errorsLoop filename tt (n + 1) (some st') rest
    Except.ok (chunks ++ more, st'')

/-- Lines 71-75: `test_type` is `"skipped"` in skip mode, else `"error"`. -/
def test_type (skip : Bool) : String := if skip then "skipped" else "error"

/-- Lines 71-75: the plural suffix of the summary attribute, empty in skip
mode, `"s"` otherwise. -/
def plural (skip : Bool) : String := if skip then "" else "s"

/-- Line 78: the fixed XML declaration. -/
def xmlDecl : String := "<?xml version=\"1.0\" encoding=\"UTF-8\"?>\n"

/-- Lines 77-128: the whole per-file conversion, as the list of chunks
written to the output file. `errors` is `doc.findall('.//error')`. The
variables `fi`/`li` are module level, so the conversion starts from the
binding `st` left by whatever was processed before this file (unbound,
`none`, only at the very start of the run) and passes its final binding
on; the zero-error branch never touches them. -/
def transcode (filename : String) (skip : Bool)
    (st : Option (Option Elem × Option Elem)) (errors : List ErrorNode) :
    Except PyError (List String × Option (Option Elem × Option Elem)) :=
  let tt := test_type skip
  let pl := plural skip
  if errors.length == 0 then
    Except.ok ([xmlDecl,
      "<testsuite name=\"valgrind\" tests=\"1\" " ++ tt ++ pl ++ "=\""
        ++ toString errors.length ++ "\">\n",
      "    <testcase classname=\"valgrind-memcheck\" name=\"" ++ filename ++ "\"/>\n",
      "</testsuite>\n"], st)
  else do
    let (body, st') ← errorsLoop filename tt 1 st errors
    Except.ok ([xmlDecl,
      "<testsuite name=\"valgrind\" tests=\"" ++ toString errors.length ++ "\" "
        ++ tt ++ pl ++ "=\"" ++ toString errors.length ++ "\">\n"]
      ++ body ++ ["</testsuite>\n"], st')

/-- Python's `s.endswith(suf)`, on character lists. -/
def pyEndsWith (s suf : String) : Bool :=
  List.isSuffixOf suf.data s.data

/-- Lines 67-69: output path is `output_directory/filename`, with `.xml`
appended when the name does not already end in it (`os.path.join` modelled
as `/`-concatenation). -/
def output_filename (outDir fname : String) : String :=
  let p := outDir ++ "/" ++ fname
  if pyEndsWith p ".xml" then p else p ++ ".xml"

/-- Lines 56-128: processing of the discovered files in order. Each input
is a pair of its bare filename and its parse result — `none` when
`ET.parse` raises `ParseError`, in which case the `except` clause runs
`continue` and nothing is written (lines 60-63). The module-level
`fi`/`li` binding persists across the walk loop, so each file's conversion
starts from the binding the previous files left (`none`, unbound, at the
start of the run). Returns the output files written, as (output path,
chunks) pairs; an uncaught exception anywhere aborts the whole run. -/
def runFiles (outDir : String) (skip : Bool) :
    Option (Option Elem × Option Elem) →
    List (String × Option (List ErrorNode)) →
    Except PyError (List (String × List String))
  | _, [] => Except.ok []
  | st, (fname, parsed) :: rest =>
    match parsed with
    | none => runFiles outDir skip st rest
    | some errors => do
      let (ws, st') ← transcode fname skip st errors
      let more ← runFiles outDir skip st' rest
      Except.ok ((output_filename outDir fname, ws) :: more)

/-- Python's `pat in s` substring test, on character lists. -/
def listContainsSub (pat : List Char) : List Char → Bool
  | [] => pat.isEmpty
  | c :: rest => pat.isPrefixOf (c :: rest) || listContainsSub pat rest

/-- Line 57: `"xml" in filename`. -/
def contains_xml (s : String) : Bool :=
  listContainsSub "xml".data s.data

/-- A directory tree, for modelling `os.walk`: a directory's basename, the
files directly in it, and its subdirectories. -/
inductive DirTree where
  | node (base : String) (files : List String) (subdirs : List DirTree)
deriving Repr

mutual

/-- `os.walk` in top-down order: every directory of the tree is yielded as
(its basename, its direct files), parents before children, and no
directory is ever pruned from the walk. -/
def walkEntries : DirTree → List (String × List String)
  | DirTree.node base files subdirs =>
    (base, files) :: walkForest subdirs

/-- The walk of a list of sibling subtrees, in order. -/
def walkForest : List DirTree → List (String × List String)
  | [] => []
  | t :: ts => walkEntries t ++ walkForest ts

end

/-- Lines 53-57: the selection loop. A directory whose basename equals the
output directory's basename is skipped with `continue` — which drops that
directory's own files only, the walk still descends into its
subdirectories — and of the remaining files those whose name contains
`"xml"` are processed, as (directory basename, filename) pairs. -/
def selectedInputs (entries : List (String × List String)) (outBase : String) :
    List (String × String) :=
  entries.flatMap fun e =>
    if e.1 = outBase then []
    else (e.2.filter fun f => contains_xml f).map fun f => (e.1, f)

/-- A frame with all four children present and carrying text. -/
def frameFull : Frame :=
  { ip := some ⟨some "0x1"⟩, fn := some ⟨some "main"⟩,
    file := some ⟨some "a.c"⟩, line := some ⟨some "10"⟩ }

/-- A fully populated error record with one fully populated frame. -/
def eA : ErrorNode :=
  { kind := some ⟨some "K"⟩, what := some ⟨some "w"⟩, xwhatText := none,
    stack := some [frameFull] }

/-- An error record whose `what` is absent but whose `xwhat/text` is
present. -/
def eFB : ErrorNode :=
  { kind := some ⟨some "K"⟩, what := none, xwhatText := some ⟨some "fb"⟩,
    stack := some [frameFull] }

/-- An error record with one qualifying frame whose `fn` is absent. -/
def eStale1 : ErrorNode :=
  { kind := some ⟨some "K"⟩, what := some ⟨some "w1"⟩, xwhatText := none,
    stack := some [{ ip := some ⟨some "0x1"⟩, fn := none,
                     file := some ⟨some "a.c"⟩, line := some ⟨some "10"⟩ }] }

/-- An error record whose `stack` element exists but contains no frames. -/
def eStale2 : ErrorNode :=
  { kind := some ⟨some "K"⟩, what := some ⟨some "w2"⟩, xwhatText := none,
    stack := some [] }

/-- An error record with neither `what` nor `xwhat/text`. -/
def eNoWhat : ErrorNode :=
  { kind := some ⟨some "K"⟩, what := none, xwhatText := none,
    stack := some [frameFull] }

/-- An error record lacking the `kind` element. -/
def eNoKind : ErrorNode :=
  { kind := none, what := some ⟨some "w"⟩, xwhatText := none,
    stack := some [frameFull] }

/-- An input root whose subtree `out` has the output directory's basename
and contains both a direct file and a deeper subdirectory with a file. -/
def exTree : DirTree :=
  DirTree.node "in" [] [DirTree.node "out" ["a.xml"] [DirTree.node "deep" ["b.xml"] []]]

/-- The chunks one error record contributes on success, as established by
`processError_ok_shape`; `ie` is the (1-based index, record) pair: one
test-case opening line whose name carries the index and the record's kind,
one status child tagged `tt` with the kind as its `type`, the description
line, the frame body lines, and the two closing tags. -/
def recordShape (fn tt : String) (ie : Nat × ErrorNode) (part : List String) : Prop :=
  ∃ k nt w fls, getText ie.2.kind = Except.ok k ∧
    getText (findWhat ie.2) = Except.ok w ∧
    part = ("    <testcase classname=\"valgrind-memcheck\" name=\"" ++ fn
        ++ " " ++ toString ie.1 ++ " (" ++ k ++ nt)
      :: ("        <" ++ tt ++ " type=\"" ++ k ++ "\">\n")
      :: ("  " ++ w ++ "\n\n")
      :: (fls ++ ["        </" ++ tt ++ ">\n", "    </testcase>\n"])

theorem nameLine_ok {filename : String} {n : Nat} {kind fi li : Option Elem} {s : String}
    (h : nameLine filename n kind fi li = Except.ok s) :
    ∃ k nt, getText kind = Except.ok k ∧
      s = "    <testcase classname=\"valgrind-memcheck\" name=\"" ++ filename
        ++ " " ++ toString n ++ " (" ++ k ++ nt := by
  unfold nameLine at h
  by_cases hq : (fi.isSome && li.isSome) = true
  · rw [if_pos hq] at h
    cases hk : getText kind with
    | error er => simp [hk, Bind.bind, Except.bind] at h
    | ok k =>
      cases hf : getText fi with
      | error er => simp [hk, hf, Bind.bind, Except.bind] at h
      | ok f =>
        cases hl : getText li with
        | error er => simp [hk, hf, hl, Bind.bind, Except.bind] at h
        | ok l =>
          simp [hk, hf, hl, Bind.bind, Except.bind] at h
          refine ⟨k, ", " ++ f ++ ":" ++ l ++ ")\">\n", rfl, ?_⟩
          simp [← h, String.append_assoc]
  · rw [if_neg hq] at h
    cases hk : getText kind with
    | error er => simp [hk, Bind.bind, Except.bind] at h
    | ok k =>
      simp [hk, Bind.bind, Except.bind] at h
      refine ⟨k, ")\">\n", rfl, ?_⟩
      simp [← h, String.append_assoc]

theorem processError_ok_shape {fn tt : String} {n : Nat}
    {st : Option (Option Elem × Option Elem)} {e : ErrorNode}
    {cs : List String} {st' : Option Elem × Option Elem}
    (h : processError fn tt n st e = Except.ok (cs, st')) :
    ∃ k nt w fls, getText e.kind = Except.ok k ∧
      getText (findWhat e) = Except.ok w ∧
      cs = ("    <testcase classname=\"valgrind-memcheck\" name=\"" ++ fn
          ++ " " ++ toString n ++ " (" ++ k ++ nt)
        :: ("        <" ++ tt ++ " type=\"" ++ k ++ "\">\n")
        :: ("  " ++ w ++ "\n\n")
        :: (fls ++ ["        </" ++ tt ++ ">\n", "    </testcase>\n"]) := by
  unfold processError at h
  split at h
  · simp at h
  · split at h
    · simp at h
    · rename_i x1 frames hstack x2 fi li hscan
      cases hnl : nameLine fn n e.kind fi li with
      | error er => simp [hnl, Bind.bind, Except.bind] at h
      | ok nl =>
        cases hk : getText e.kind with
        | error er => simp [hnl, hk, Bind.bind, Except.bind] at h
        | ok k =>
          cases hw : getText (findWhat e) with
          | error er => simp [hnl, hk, hw, Bind.bind, Except.bind] at h
          | ok w =>
            cases hb : bodyLoop frames (fi, li) with
            | error er => simp [hnl, hk, hw, hb, Bind.bind, Except.bind] at h
            | ok pr =>
              obtain ⟨fls, st2⟩ := pr
              simp [hnl, hk, hw, hb, Bind.bind, Except.bind] at h
              obtain ⟨hcs, hst'⟩ := h
              obtain ⟨k', nt, hk', hnl'⟩ := nameLine_ok hnl
              rw [hk] at hk'
              injection hk' with hk''
              subst hk''
              refine ⟨k, nt, w, fls, rfl, rfl, ?_⟩
              rw [← hcs, hnl']

theorem errorsLoop_shape {fn tt : String} :
    ∀ (es : List ErrorNode) (n : Nat) (st : Option (Option Elem × Option Elem))
      (ws : List String) (stOut : Option (Option Elem × Option Elem)),
      errorsLoop fn tt n st es = Except.ok (ws, stOut) →
      ∃ parts : List (List String), ws = parts.flatten ∧
        List.Forall₂ (recordShape fn tt) (es.enumFrom n) parts := by
  intro es
  induction es with
  | nil =>
    intro n st ws stOut h
    simp [errorsLoop] at h
    exact ⟨[], by simp [← h.1], by simp [List.enumFrom]⟩
  | cons e rest ih =>
    intro n st ws stOut h
    unfold errorsLoop at h
    cases hp : processError fn tt n st e with
    | error er => simp [hp, Bind.bind, Except.bind] at h
    | ok pr =>
      obtain ⟨cs, st'⟩ := pr
      cases hr : errorsLoop fn tt (n + 1) (some st') rest with
      | error er => simp [hp, hr, Bind.bind, Except.bind] at h
      | ok pr' =>
        obtain ⟨more, st''⟩ := pr'
        simp [hp, hr, Bind.bind, Except.bind] at h
        obtain ⟨parts, hmore, hfa⟩ := ih (n + 1) (some st') more st'' hr
        refine ⟨cs :: parts, ?_, ?_⟩
        · simp [← h.1, hmore]
        · simp only [List.enumFrom]
          exact List.Forall₂.cons (processError_ok_shape hp) hfa

theorem transcode_ok_shape {fn : String} {skip : Bool}
    {st stOut : Option (Option Elem × Option Elem)} {errors : List ErrorNode}
    {ws : List String} (hne : errors ≠ [])
    (h : transcode fn skip st errors = Except.ok (ws, stOut)) :
    ∃ parts : List (List String),
      parts.length = errors.length ∧
      ws = xmlDecl
        :: ("<testsuite name=\"valgrind\" tests=\"" ++ toString errors.length ++ "\" "
            ++ test_type skip ++ plural skip ++ "=\"" ++ toString errors.length ++ "\">\n")
        :: (parts.flatten ++ ["</testsuite>\n"]) ∧
      List.Forall₂ (recordShape fn (test_type skip)) (errors.enumFrom 1) parts := by
  have hne' : ¬((errors.length == 0) = true) := by
    simp [List.length_eq_zero]
    exact hne
  unfold transcode at h
  rw [if_neg hne'] at h
  cases hl : errorsLoop fn (test_type skip) 1 st errors with
  | error er => simp [hl, Bind.bind, Except.bind] at h
  | ok pr =>
    obtain ⟨body, st'⟩ := pr
    simp [hl, Bind.bind, Except.bind] at h
    obtain ⟨parts, hbody, hfa⟩ := errorsLoop_shape errors 1 st body st' hl
    have hlen : parts.length = errors.length := by
      have hl2 := List.Forall₂.length_eq hfa
      simpa using hl2.symm
    refine ⟨parts, hlen, ?_, hfa⟩
    simp [← h.1, hbody]

theorem processError_err_of_kind_none {fn tt : String} {n : Nat}
    {st : Option (Option Elem × Option Elem)} {e : ErrorNode} (hk : e.kind = none) :
    ∃ er, processError fn tt n st e = Except.error er := by
  cases h : processError fn tt n st e with
  | error er => exact ⟨er, rfl⟩
  | ok pr =>
    obtain ⟨cs, st'⟩ := pr
    obtain ⟨k, nt, w, fls, hkk, -, -⟩ := processError_ok_shape h
    rw [hk] at hkk
    simp [getText] at hkk

theorem processError_err_of_what_none {fn tt : String} {n : Nat}
    {st : Option (Option Elem × Option Elem)} {e : ErrorNode} (hw : findWhat e = none) :
    ∃ er, processError fn tt n st e = Except.error er := by
  cases h : processError fn tt n st e with
  | error er => exact ⟨er, rfl⟩
  | ok pr =>
    obtain ⟨cs, st'⟩ := pr
    obtain ⟨k, nt, w, fls, -, hww, -⟩ := processError_ok_shape h
    rw [hw] at hww
    simp [getText] at hww

theorem errorsLoop_err {fn tt : String} {e : ErrorNode}
    (he : ∀ (n : Nat) (st : Option (Option Elem × Option Elem)),
      ∃ er, processError fn tt n st e = Except.error er) :
    ∀ (l1 : List ErrorNode) (l2 : List ErrorNode) (n : Nat)
      (st : Option (Option Elem × Option Elem)),
      ∃ er, errorsLoop fn tt n st (l1 ++ e :: l2) = Except.error er := by
  intro l1
  induction l1 with
  | nil =>
    intro l2 n st
    obtain ⟨er, hp⟩ := he n st
    exact ⟨er, by simp [errorsLoop, hp, Bind.bind, Except.bind]⟩
  | cons e0 rest ih =>
    intro l2 n st
    cases hp : processError fn tt n st e0 with
    | error er => exact ⟨er, by simp [errorsLoop, hp, Bind.bind, Except.bind]⟩
    | ok pr =>
      obtain ⟨cs, st'⟩ := pr
      obtain ⟨er, hr⟩ := ih l2 (n + 1) (some st')
      exact ⟨er, by simp [errorsLoop, hp, hr, Bind.bind, Except.bind]⟩

theorem transcode_err {fn : String} {skip : Bool} {e : ErrorNode} {l1 l2 : List ErrorNode}
    (he : ∀ (n : Nat) (st : Option (Option Elem × Option Elem)),
      ∃ er, processError fn (test_type skip) n st e = Except.error er) :
    ∀ (st : Option (Option Elem × Option Elem)),
      ∃ er, transcode fn skip st (l1 ++ e :: l2) = Except.error er := by
  intro st
  obtain ⟨er, hl⟩ := errorsLoop_err he l1 l2 1 st
  refine ⟨er, ?_⟩
  unfold transcode
  rw [if_neg (by simp)]
  simp [hl, Bind.bind, Except.bind]

theorem runFiles_err {outDir : String} {skip : Bool} {f : String}
    {errors : List ErrorNode}
    (he : ∀ (st : Option (Option Elem × Option Elem)),
      ∃ er, transcode f skip st errors = Except.error er) :
    ∀ (pre post : List (String × Option (List ErrorNode)))
      (st : Option (Option Elem × Option Elem)),
      ∃ er, runFiles outDir skip st (pre ++ (f, some errors) :: post)
        = Except.error er := by
  intro pre
  induction pre with
  | nil =>
    intro post st
    obtain ⟨er, ht⟩ := he st
    exact ⟨er, by simp [runFiles, ht, Bind.bind, Except.bind]⟩
  | cons p rest ih =>
    intro post st
    obtain ⟨g, parsed⟩ := p
    cases parsed with
    | none => simpa [runFiles] using ih post st
    | some es =>
      cases ht : transcode g skip st es with
      | error er => exact ⟨er, by simp [runFiles, ht, Bind.bind, Except.bind]⟩
      | ok pr =>
        obtain ⟨ws, st'⟩ := pr
        obtain ⟨er, hr⟩ := ih post st'
        exact ⟨er, by simp [runFiles, ht, hr, Bind.bind, Except.bind]⟩

theorem scanFrames_of_ne_nil {frames : List Frame} (h : frames ≠ [])
    (st st' : Option (Option Elem × Option Elem)) :
    scanFrames frames st = scanFrames frames st' := by
  cases frames with
  | nil => exact absurd rfl h
  | cons f rest => rfl

/-- C1: the claim says every error record's name suffix is determined by
scanning that record's own frames, with only `(kind)` when none qualifies.
The code instead reuses the `fi`/`li` variables left over from the
previous record: here the second record's stack has zero frames, yet its
test-case name carries the first record's `a.c:10` location (and the
stale binding is also what the file passes on). -/
theorem C1_stale_suffix_eval :
    eStale2.stack = some [] ∧
    transcode "f.xml" false none [eStale1, eStale2] = Except.ok
      (["<?xml version=\"1.0\" encoding=\"UTF-8\"?>\n",
        "<testsuite name=\"valgrind\" tests=\"2\" errors=\"2\">\n",
        "    <testcase classname=\"valgrind-memcheck\" name=\"f.xml 1 (K, a.c:10)\">\n",
        "        <error type=\"K\">\n", "  w1\n\n",
        "  0x1: unknown function name (a.c:10)\n",
        "        </error>\n", "    </testcase>\n",
        "    <testcase classname=\"valgrind-memcheck\" name=\"f.xml 2 (K, a.c:10)\">\n",
        "        <error type=\"K\">\n", "  w2\n\n",
        "        </error>\n", "    </testcase>\n", "</testsuite>\n"],
       some (some ⟨some "a.c"⟩, some ⟨some "10"⟩)) :=
  ⟨rfl, rfl⟩

/-- C2: for every report with N ≥ 1 error nodes whose conversion completes
(from any incoming `fi`/`li` binding), the output opens with the testsuite
line carrying tests="N", and the body is the concatenation of exactly N
test-case blocks, one per error record in document order, the i-th named
with index i and that record's kind. -/
theorem C2_count_invariant (fn : String) (skip : Bool)
    (st stOut : Option (Option Elem × Option Elem)) (errors : List ErrorNode)
    (ws : List String) (hne : errors ≠ [])
    (h : transcode fn skip st errors = Except.ok (ws, stOut)) :
    ∃ parts : List (List String),
      parts.length = errors.length ∧
      ws = xmlDecl
        :: ("<testsuite name=\"valgrind\" tests=\"" ++ toString errors.length ++ "\" "
            ++ test_type skip ++ plural skip ++ "=\"" ++ toString errors.length ++ "\">\n")
        :: (parts.flatten ++ ["</testsuite>\n"]) ∧
      List.Forall₂ (recordShape fn (test_type skip)) (errors.enumFrom 1) parts :=
  transcode_ok_shape hne h

/-- Witness for C2: the one-error report `[eA]` converted in normal mode
at the start of a run. -/
theorem C2_count_invariant_witness :
    ∃ parts : List (List String),
      parts.length = [eA].length ∧
      ["<?xml version=\"1.0\" encoding=\"UTF-8\"?>\n",
       "<testsuite name=\"valgrind\" tests=\"1\" errors=\"1\">\n",
       "    <testcase classname=\"valgrind-memcheck\" name=\"f.xml 1 (K, a.c:10)\">\n",
       "        <error type=\"K\">\n", "  w\n\n", "  0x1: main (a.c:10)\n",
       "        </error>\n", "    </testcase>\n", "</testsuite>\n"] = xmlDecl
        :: ("<testsuite name=\"valgrind\" tests=\"" ++ toString [eA].length ++ "\" "
            ++ test_type false ++ plural false ++ "=\"" ++ toString [eA].length ++ "\">\n")
        :: (parts.flatten ++ ["</testsuite>\n"]) ∧
      List.Forall₂ (recordShape "f.xml" (test_type false)) ([eA].enumFrom 1) parts :=
  C2_count_invariant "f.xml" false none
    (some (some ⟨some "a.c"⟩, some ⟨some "10"⟩)) [eA] _ (by simp) rfl

/-- C3: a report with zero error nodes converts, in either mode and from
any incoming `fi`/`li` binding, to the exact four chunks: declaration, a
testsuite line with tests="1" and the status-count attribute equal to "0",
a single self-closed test case whose name is exactly the bare input
filename (no status child, no body), and the closing tag; the binding is
passed on untouched. -/
theorem C3_zero_errors (filename : String) (skip : Bool)
    (st : Option (Option Elem × Option Elem)) :
    transcode filename skip st [] = Except.ok ([xmlDecl,
      "<testsuite name=\"valgrind\" tests=\"1\" "
        ++ (if skip then "skipped" else "errors") ++ "=\"0\">\n",
      "    <testcase classname=\"valgrind-memcheck\" name=\"" ++ filename ++ "\"/>\n",
      "</testsuite>\n"], st) := by
  cases skip <;> rfl

/-- C4: the escaping applied to a function name replaces exactly `&`, `<`,
`>` (in that order), so `A<B&C>` renders `A&lt;B&amp;C&gt;`; a frame's body
line escapes only the function name while `ip`, `file`, `line` appear
verbatim; and a whole record's chunks carry the kind, the description and
the filename unescaped. -/
theorem C4_escaping :
    escapeFn "A<B&C>" = "A&lt;B&amp;C&gt;" ∧
    (∀ i s f l : String,
      frameLine ⟨some ⟨some i⟩, some ⟨some s⟩, some ⟨some f⟩, some ⟨some l⟩⟩
        = Except.ok ("  " ++ i ++ ": " ++ escapeFn s ++ " (" ++ f ++ ":" ++ l ++ ")\n")) ∧
    (∀ (fn tt : String) (n : Nat) (k w i s f l : String),
      processError fn tt n none
        ⟨some ⟨some k⟩, some ⟨some w⟩, none,
         some [⟨some ⟨some i⟩, some ⟨some s⟩, some ⟨some f⟩, some ⟨some l⟩⟩]⟩
        = Except.ok (["    <testcase classname=\"valgrind-memcheck\" name=\"" ++ fn ++ " "
              ++ toString n ++ " (" ++ k ++ ", " ++ f ++ ":" ++ l ++ ")\">\n",
            "        <" ++ tt ++ " type=\"" ++ k ++ "\">\n",
            "  " ++ w ++ "\n\n",
            "  " ++ i ++ ": " ++ escapeFn s ++ " (" ++ f ++ ":" ++ l ++ ")\n",
            "        </" ++ tt ++ ">\n", "    </testcase>\n"],
          (some ⟨some f⟩, some ⟨some l⟩))) :=
  ⟨by decide, fun i s f l => rfl, fun fn tt n k w i s f l => rfl⟩

/-- C5: in skip mode the status-count attribute is named `skipped` (no
trailing s) and every status child is tagged `skipped`; otherwise the
attribute is `errors` (with trailing s) and the children are tagged
`error`; in both modes and in both branches the attribute's value is the
error count, from any incoming `fi`/`li` binding. -/
theorem C5_status_attribute (skip : Bool) :
    (test_type skip ++ plural skip = if skip then "skipped" else "errors") ∧
    (test_type skip = if skip then "skipped" else "error") ∧
    ∀ (fn : String) (st stOut : Option (Option Elem × Option Elem))
      (errors : List ErrorNode) (ws : List String),
      transcode fn skip st errors = Except.ok (ws, stOut) →
      (∃ t, ws[1]? = some ("<testsuite name=\"valgrind\" tests=\"" ++ t ++ "\" "
        ++ test_type skip ++ plural skip ++ "=\"" ++ toString errors.length ++ "\">\n")) ∧
      (errors ≠ [] → ∃ parts : List (List String),
        ws = xmlDecl
          :: ("<testsuite name=\"valgrind\" tests=\"" ++ toString errors.length ++ "\" "
              ++ test_type skip ++ plural skip ++ "=\"" ++ toString errors.length ++ "\">\n")
          :: (parts.flatten ++ ["</testsuite>\n"]) ∧
        List.Forall₂ (recordShape fn (test_type skip)) (errors.enumFrom 1) parts) := by
  refine ⟨by cases skip <;> rfl, by cases skip <;> rfl, ?_⟩
  intro fn st stOut errors ws h
  by_cases hne : errors = []
  · subst hne
    refine ⟨⟨"1", ?_⟩, fun hne' => absurd rfl hne'⟩
    unfold transcode at h
    rw [if_pos (by simp)] at h
    simp only [Except.ok.injEq, Prod.mk.injEq] at h
    rw [← h.1]
    cases skip <;> rfl
  · obtain ⟨parts, hlen, hws, hfa⟩ := transcode_ok_shape hne h
    exact ⟨⟨toString errors.length, by simp [hws]⟩, fun _ => ⟨parts, hws, hfa⟩⟩

/-- Witness for C5: the one-error report `[eA]` converted in skip mode
carries `skipped="1"` and a `skipped`-tagged status child. -/
theorem C5_status_attribute_witness :
    (∃ t, (["<?xml version=\"1.0\" encoding=\"UTF-8\"?>\n",
       "<testsuite name=\"valgrind\" tests=\"1\" skipped=\"1\">\n",
       "    <testcase classname=\"valgrind-memcheck\" name=\"f.xml 1 (K, a.c:10)\">\n",
       "        <skipped type=\"K\">\n", "  w\n\n", "  0x1: main (a.c:10)\n",
       "        </skipped>\n", "    </testcase>\n", "</testsuite>\n"] :
       List String)[1]? = some ("<testsuite name=\"valgrind\" tests=\"" ++ t ++ "\" "
        ++ test_type true ++ plural true ++ "=\"" ++ toString [eA].length ++ "\">\n")) ∧
    (∃ parts : List (List String),
      ["<?xml version=\"1.0\" encoding=\"UTF-8\"?>\n",
       "<testsuite name=\"valgrind\" tests=\"1\" skipped=\"1\">\n",
       "    <testcase classname=\"valgrind-memcheck\" name=\"f.xml 1 (K, a.c:10)\">\n",
       "        <skipped type=\"K\">\n", "  w\n\n", "  0x1: main (a.c:10)\n",
       "        </skipped>\n", "    </testcase>\n", "</testsuite>\n"] = xmlDecl
        :: ("<testsuite name=\"valgrind\" tests=\"" ++ toString [eA].length ++ "\" "
            ++ test_type true ++ plural true ++ "=\"" ++ toString [eA].length ++ "\">\n")
        :: (parts.flatten ++ ["</testsuite>\n"]) ∧
      List.Forall₂ (recordShape "f.xml" (test_type true)) ([eA].enumFrom 1) parts) := by
  have r := ((C5_status_attribute true).2.2 "f.xml" none
    (some (some ⟨some "a.c"⟩, some ⟨some "10"⟩)) [eA] _ rfl)
  exact ⟨r.1, r.2 (by simp)⟩

/-- C6 counterexample: a record with neither `what` nor `xwhat/text` makes
the conversion fault (`what.text` on `None`, an `AttributeError`), so "a
missing description is recovered, transcoding does not fault" fails as
stated. -/
theorem C6_missing_description_faults :
    eNoWhat.what = none ∧ eNoWhat.xwhatText = none ∧
    transcode "f.xml" false none [eNoWhat] = Except.error PyError.attributeError :=
  ⟨rfl, rfl, rfl⟩

/-- C6 amended: the description is resolved from `what`, falling back to
`xwhat/text` when `what` is absent; every successfully emitted record's
third chunk is the resolved description text; but when neither field is
present the record is not emitted — the conversion faults. -/
theorem C6_description_fallback :
    (∀ e : ErrorNode, e.what = none → findWhat e = e.xwhatText) ∧
    (∀ (e : ErrorNode) (w : Elem), e.what = some w → findWhat e = some w) ∧
    (∀ (fn tt : String) (n : Nat) (st : Option (Option Elem × Option Elem))
       (e : ErrorNode) (cs : List String) (st2 : Option Elem × Option Elem),
      processError fn tt n st e = Except.ok (cs, st2) →
      ∃ t, getText (findWhat e) = Except.ok t ∧ cs[2]? = some ("  " ++ t ++ "\n\n")) ∧
    (∀ (fn tt : String) (n : Nat) (st : Option (Option Elem × Option Elem))
       (e : ErrorNode), findWhat e = none →
      ∃ er, processError fn tt n st e = Except.error er) := by
  refine ⟨?_, ?_, ?_, ?_⟩
  · intro e h; simp [findWhat, h]
  · intro e w h; simp [findWhat, h]
  · intro fn tt n st e cs st2 h
    obtain ⟨k, nt, w, fls, -, hww, hcs⟩ := processError_ok_shape h
    exact ⟨w, hww, by simp [hcs]⟩
  · intro fn tt n st e hw
    exact processError_err_of_what_none hw

/-- Witness for C6: the record `eFB` with absent `what` and present
`xwhat/text` is emitted, its description chunk being the fallback text. -/
theorem C6_description_fallback_witness :
    ∃ t, getText (findWhat eFB) = Except.ok t ∧
      (["    <testcase classname=\"valgrind-memcheck\" name=\"f.xml 1 (K, a.c:10)\">\n",
        "        <error type=\"K\">\n", "  fb\n\n", "  0x1: main (a.c:10)\n",
        "        </error>\n", "    </testcase>\n"] : List String)[2]?
        = some ("  " ++ t ++ "\n\n") :=
  C6_description_fallback.2.2.1 "f.xml" "error" 1 none eFB _ _ rfl

/-- C7: a file whose parse failed (`ET.parse` raised `ParseError`, modelled
as a `none` parse result) contributes no output file, raises nothing, and
the run is identical to the run without that file, wherever it sits in the
list and whatever `fi`/`li` binding it is reached with. -/
theorem C7_malformed_input_skipped (outDir : String) (skip : Bool) (f : String)
    (post : List (String × Option (List ErrorNode))) :
    ∀ (pre : List (String × Option (List ErrorNode)))
      (st : Option (Option Elem × Option Elem)),
      runFiles outDir skip st (pre ++ (f, none) :: post)
        = runFiles outDir skip st (pre ++ post) := by
  intro pre
  induction pre with
  | nil => intro st; rfl
  | cons p rest ih =>
    intro st
    obtain ⟨g, parsed⟩ := p
    cases parsed with
    | none => simpa [runFiles] using ih st
    | some es => simp [runFiles, ih]

/-- C8: whenever any well-formed input file in the run contains an error
record without a `kind` element, the whole run ends in an uncaught fault —
no output list is produced and no default kind is substituted, whatever
`fi`/`li` binding the run starts from. -/
theorem C8_missing_kind_fatal (outDir : String) (skip : Bool)
    (pre post : List (String × Option (List ErrorNode))) (f : String)
    (st : Option (Option Elem × Option Elem))
    (l1 l2 : List ErrorNode) (e : ErrorNode) (hk : e.kind = none) :
    ∃ er, runFiles outDir skip st (pre ++ (f, some (l1 ++ e :: l2)) :: post)
      = Except.error er :=
  runFiles_err (transcode_err (fun _ _ => processError_err_of_kind_none hk)) pre post st

/-- Witness for C8: a single-file run whose only record lacks `kind`. -/
theorem C8_missing_kind_fatal_witness :
    ∃ er, runFiles "out" false none [("f.xml", some [eNoKind])] = Except.error er :=
  C8_missing_kind_fatal "out" false [] [] "f.xml" none [] [] eNoKind rfl

/-- C9 counterexample: in `exTree` the file `b.xml` sits at depth two below
the directory `out`, whose basename equals the output directory's basename,
yet it is selected for reading — the `continue` skips only the matching
directory's own files, the walk still descends into its subdirectories. -/
theorem C9_subtree_file_still_read :
    ("deep", "b.xml") ∈ selectedInputs (walkEntries exTree) "out" ∧
    contains_xml "b.xml" = true := by
  constructor <;> decide

/-- C9 amended: a file is excluded exactly when its immediate parent
directory's basename equals the output directory's basename: every selected
file comes from a non-matching directory and has "xml" in its name, and
conversely every "xml"-named file of a walked non-matching directory is
selected. The exclusion does not extend to deeper subdirectories. -/
theorem C9_direct_exclusion :
    (∀ (entries : List (String × List String)) (outBase d f : String),
      (d, f) ∈ selectedInputs entries outBase → d ≠ outBase ∧ contains_xml f = true) ∧
    (∀ (entries : List (String × List String)) (outBase d f : String) (fs : List String),
      (d, fs) ∈ entries → d ≠ outBase → f ∈ fs → contains_xml f = true →
      (d, f) ∈ selectedInputs entries outBase) := by
  constructor
  · intro entries outBase d f h
    simp only [selectedInputs, List.mem_flatMap] at h
    obtain ⟨⟨d', fs⟩, hmem, hin⟩ := h
    by_cases hd : d' = outBase
    · rw [if_pos hd] at hin
      simp at hin
    · rw [if_neg hd] at hin
      simp only [List.mem_map, List.mem_filter] at hin
      obtain ⟨f', ⟨hf'mem, hf'xml⟩, heq⟩ := hin
      cases heq
      exact ⟨hd, hf'xml⟩
  · intro entries outBase d f fs hmem hd hf hxml
    simp only [selectedInputs, List.mem_flatMap]
    refine ⟨(d, fs), hmem, ?_⟩
    rw [if_neg hd]
    simp only [List.mem_map, List.mem_filter]
    exact ⟨f, ⟨hf, hxml⟩, rfl⟩

/-- Witness for C9: a one-directory walk whose directory name differs from
the output basename; its "xml"-named file is selected, in both directions. -/
theorem C9_direct_exclusion_witness :
    ("a" ≠ "out" ∧ contains_xml "r.xml" = true) ∧
    ("a", "r.xml") ∈ selectedInputs [("a", ["r.xml"])] "out" :=
  ⟨C9_direct_exclusion.1 [("a", ["r.xml"])] "out" "a" "r.xml" (by decide),
   C9_direct_exclusion.2 [("a", ["r.xml"])] "out" "a" "r.xml" ["r.xml"]
     (by decide) (by decide) (by decide) (by decide)⟩

/-- C10 counterexample: the claim asserts that "for the first record of a
file an empty stack makes the test read undefined variables, an uncaught
fault" — for every file. But `fi`/`li` are module level and persist across
the walk loop: after `a.xml` (one record with a frame at a.c:10), the file
`b.xml`, whose first and only record has a zero-frame stack, does not
fault; the run completes and names that record `b.xml 1 (K, a.c:10)` with
the previous file's location. -/
theorem C10_per_file_reset_refuted :
    eStale2.stack = some [] ∧
    runFiles "out" false none [("a.xml", some [eA]), ("b.xml", some [eStale2])]
      = Except.ok
        [("out/a.xml",
          ["<?xml version=\"1.0\" encoding=\"UTF-8\"?>\n",
           "<testsuite name=\"valgrind\" tests=\"1\" errors=\"1\">\n",
           "    <testcase classname=\"valgrind-memcheck\" name=\"a.xml 1 (K, a.c:10)\">\n",
           "        <error type=\"K\">\n", "  w\n\n", "  0x1: main (a.c:10)\n",
           "        </error>\n", "    </testcase>\n", "</testsuite>\n"]),
         ("out/b.xml",
          ["<?xml version=\"1.0\" encoding=\"UTF-8\"?>\n",
           "<testsuite name=\"valgrind\" tests=\"1\" errors=\"1\">\n",
           "    <testcase classname=\"valgrind-memcheck\" name=\"b.xml 1 (K, a.c:10)\">\n",
           "        <error type=\"K\">\n", "  w2\n\n",
           "        </error>\n", "    </testcase>\n", "</testsuite>\n"])] :=
  ⟨rfl, rfl⟩

/-- C10 amended: the `fi`/`li` lookups are module level and never reset —
neither between error records nor between files: an empty frame list
leaves the scan state untouched; only when the stack of the very first
record of the whole run is empty are the variables unbound, and the
conversion faults with `NameError`; a zero-frame record reached with a
bound file/line — possibly left by an earlier file — reuses it and its
name wrongly gains that `file:line` suffix; a record with at least one
frame behaves independently of the carried state; and the binding a file's
conversion ends with is exactly what the next file starts from. -/
theorem C10_state_leak :
    (∀ st, scanFrames [] st = st) ∧
    (∀ (fn : String) (skip : Bool) (e : ErrorNode) (rest : List ErrorNode),
      e.stack = some [] →
      transcode fn skip none (e :: rest) = Except.error PyError.nameError) ∧
    (∀ (fn tt : String) (n : Nat) (e : ErrorNode) (fi li : Elem) (k w fT lT : String),
      e.stack = some [] → e.kind = some ⟨some k⟩ → findWhat e = some ⟨some w⟩ →
      fi.text = some fT → li.text = some lT →
      processError fn tt n (some (some fi, some li)) e
        = Except.ok (["    <testcase classname=\"valgrind-memcheck\" name=\"" ++ fn ++ " "
            ++ toString n ++ " (" ++ k ++ ", " ++ fT ++ ":" ++ lT ++ ")\">\n",
            "        <" ++ tt ++ " type=\"" ++ k ++ "\">\n",
            "  " ++ w ++ "\n\n",
            "        </" ++ tt ++ ">\n", "    </testcase>\n"],
          (some fi, some li))) ∧
    (∀ (fn tt : String) (n : Nat) (st st' : Option (Option Elem × Option Elem))
       (e : ErrorNode) (frames : List Frame),
      e.stack = some frames → frames ≠ [] →
      processError fn tt n st e = processError fn tt n st' e) ∧
    (∀ (outDir : String) (skip : Bool) (st st' : Option (Option Elem × Option Elem))
       (f : String) (errors : List ErrorNode)
       (rest : List (String × Option (List ErrorNode))) (ws : List String),
      transcode f skip st errors = Except.ok (ws, st') →
      runFiles outDir skip st ((f, some errors) :: rest)
        = Except.map (fun more => (output_filename outDir f, ws) :: more)
            (runFiles outDir skip st' rest)) := by
  refine ⟨fun st => rfl, ?_, ?_, ?_, ?_⟩
  · intro fn skip e rest hs
    unfold transcode
    rw [if_neg (by simp)]
    have hp : processError fn (test_type skip) 1 none e
        = Except.error PyError.nameError := by
      simp [processError, hs, scanFrames]
    simp [errorsLoop, hp, Bind.bind, Except.bind]
  · intro fn tt n e fi li k w fT lT hs hk hw hfi hli
    simp [processError, hs, scanFrames, nameLine, hk, hw, hfi, hli, getText,
      bodyLoop, Bind.bind, Except.bind]
  · intro fn tt n st st' e frames hs hne
    cases frames with
    | nil => exact absurd rfl hne
    | cons f rest =>
      unfold processError
      rw [hs]
      rfl
  · intro outDir skip st st' f errors rest ws h
    cases hr : runFiles outDir skip st' rest <;>
      simp [runFiles, h, hr, Bind.bind, Except.bind, Except.map]

/-- Witness for C10: a zero-frame first record crashes the conversion at
the start of a run; the zero-frame record `eStale2` under a carried
`a.c`/`10` binding gains that stale suffix; the one-frame record `eA` is
state-independent; and the run over `a.xml` then `b.xml` hands `a.xml`'s
final binding to `b.xml`. -/
theorem C10_state_leak_witness :
    transcode "f.xml" false none [eStale2] = Except.error PyError.nameError ∧
    processError "f.xml" "error" 2 (some (some ⟨some "a.c"⟩, some ⟨some "10"⟩)) eStale2
      = Except.ok (["    <testcase classname=\"valgrind-memcheck\" name=\"f.xml 2 (K, a.c:10)\">\n",
          "        <error type=\"K\">\n", "  w2\n\n",
          "        </error>\n", "    </testcase>\n"],
        (some ⟨some "a.c"⟩, some ⟨some "10"⟩)) ∧
    processError "f.xml" "error" 1 none eA
      = processError "f.xml" "error" 1 (some (none, none)) eA ∧
    runFiles "out" false none [("a.xml", some [eA]), ("b.xml", some [eStale2])]
      = Except.map (fun more => ("out/a.xml",
          ["<?xml version=\"1.0\" encoding=\"UTF-8\"?>\n",
           "<testsuite name=\"valgrind\" tests=\"1\" errors=\"1\">\n",
           "    <testcase classname=\"valgrind-memcheck\" name=\"a.xml 1 (K, a.c:10)\">\n",
           "        <error type=\"K\">\n", "  w\n\n", "  0x1: main (a.c:10)\n",
           "        </error>\n", "    </testcase>\n", "</testsuite>\n"]) :: more)
          (runFiles "out" false (some (some ⟨some "a.c"⟩, some ⟨some "10"⟩))
            [("b.xml", some [eStale2])]) :=
  ⟨C10_state_leak.2.1 "f.xml" false eStale2 [] rfl,
   C10_state_leak.2.2.1 "f.xml" "error" 2 eStale2 ⟨some "a.c"⟩ ⟨some "10"⟩
     "K" "w2" "a.c" "10" rfl rfl rfl rfl rfl,
   C10_state_leak.2.2.2.1 "f.xml" "error" 1 none (some (none, none)) eA [frameFull]
     rfl (by simp),
   C10_state_leak.2.2.2.2 "out" false none (some (some ⟨some "a.c"⟩, some ⟨some "10"⟩))
     "a.xml" [eA] [("b.xml", some [eStale2])] _ rfl⟩
